import Mathlib

/-!
Verification of the cmsis_dsp Rust wrapper library (samcrow/cmsis_dsp.rs).

The repository source under src/ contains the Rust-side dispatch code:
supported-size validation, length-contract checking, and the routing of
direction / output-order parameters to the native CMSIS-DSP kernels.
The numeric kernels themselves (arm_cfft_f32, arm_add_q15, ...) live in a
precompiled C library reached through generated bindings; they are not part
of the source tree.  We embed the Rust wrappers faithfully and model the
native kernels from the specification: where the spec pins their behaviour
(elementwise shape, saturation, output-order permutation) we define it, and
where it does not (the butterfly arithmetic itself) the kernel is an
explicit function parameter, so every theorem quantifies over all possible
kernel arithmetic.

Numeric carriers: f32 sample values are idealized as rationals (no claim
settled here depends on float rounding; f32 arithmetic only ever appears as
an abstract kernel parameter or as the untouched literal zero), and Q1.15 /
Q1.31 / Q1.7 values are their twos-complement bit patterns as integers.
-/

namespace CmsisDsp

/-- Idealized carrier for f32 sample values (see module comment). -/
abbrev F32 := ℚ

/-- Bit pattern of a Q1.15 value, as a mathematical integer (i16 range). -/
abbrev Q15 := ℤ

/-- Bit pattern of a Q1.31 value (i32 range). -/
abbrev Q31 := ℤ

/-- Bit pattern of a Q1.7 value (i8 range). -/
abbrev Q7 := ℤ

/-- num_complex::Complex32: an f32 (real, imaginary) pair, stored as two
consecutive values. -/
abbrev Complex32 := F32 × F32

/-- Complex<I1F15>: a Q1.15 (real, imaginary) pair. -/
abbrev ComplexQ15 := Q15 × Q15

/-- Complex<I1F31>: a Q1.31 (real, imaginary) pair. -/
abbrev ComplexQ31 := Q31 × Q31

/-- DSP library errors, from src/src/lib.rs. -/
inductive Error
  | Argument
  | Length
  | SizeMismatch
  | NanInf
  | Singular
  | TestFailure
  | Unknown
deriving DecidableEq

/-- FFT directions, from src/src/transform.rs. -/
inductive Direction
  | Forward
  | Inverse
deriving DecidableEq

/-- FFT output ordering, from src/src/transform.rs. -/
inductive OutputOrder
  | Raw
  | Standard
deriving DecidableEq

/-- impl Default for OutputOrder (src/src/transform.rs lines 32-37):
returns the Standard output order. -/
def OutputOrder.default : OutputOrder := OutputOrder.Standard

/-- Exclusive upper bound of the u16 type used for cfft / rfft-fast
instance size fields in the generated bindings. -/
def U16_BOUND : Nat := 2 ^ 16

/-- Exclusive upper bound of the u32 type used for basic-op block sizes and
the fixed-point rfft instance size fields in the generated bindings. -/
def U32_BOUND : Nat := 2 ^ 32

/-- check_length (src/src/basic.rs lines 353-364) at the single-length
Lengths instance: no equality to check, only the narrowing into the native
u32 block-size parameter.  none models the panic. -/
def check_length1 (a : Nat) : Option Nat :=
  if a < U32_BOUND then some a else none

/-- check_length at the (usize, usize) Lengths instance: asserts the two
lengths are equal, then narrows the common length into the native u32
block-size parameter.  none models the panic. -/
def check_length2 (a b : Nat) : Option Nat :=
  if a = b then
    if a < U32_BOUND then some a else none
  else none

/-- check_length at the (usize, usize, usize) Lengths instance: asserts all
three lengths are equal, then narrows.  none models the panic. -/
def check_length3 (a b c : Nat) : Option Nat :=
  if a = b ∧ b = c then
    if a < U32_BOUND then some a else none
  else none

/-- check_fft_size (src/src/transform.rs lines 460-470): converts the
value count into the integer type of the engine size field (whose
exclusive bound is the first argument), then asserts it equals the
configured size.  none models the panic; the source performs the narrowing
first (try_into.expect) and the equality assertion second. -/
def check_fft_size (bound : Nat) (size : Nat) (value_count : Nat) : Option Unit :=
  if value_count < bound then
    if size = value_count then some () else none
  else none

/-- Fuel-driven floor logarithm base 2 (structural recursion, so that
concrete runs reduce inside the kernel). -/
def log2Aux : Nat → Nat → Nat
  | 0, _ => 0
  | fuel + 1, n => if n < 2 then 0 else log2Aux fuel (n / 2) + 1

/-- Floor logarithm base 2 of n (n itself is always enough fuel). -/
def floorLog2 (n : Nat) : Nat := log2Aux n n

/-- Reversal of the low k bits of n, the index permutation underlying the
Standard output order. -/
def bitRev (k n : Nat) : Nat :=
  (List.range k).foldl (fun acc i => acc * 2 + n / 2 ^ i % 2) 0

/-- Modelled from the spec: the bit-reversal pass that maps raw
butterfly-order results to standard DFT index order (spec glossary and
section 3, OutputOrder).  Entry i of the result is entry bitRev i of the
input. -/
def bitrevPermute {α : Type} [Inhabited α] (l : List α) : List α :=
  (List.range l.length).map fun i => l.getD (bitRev (floorLog2 l.length) i) default

theorem bitrevPermute_length {α : Type} [Inhabited α] (l : List α) :
    (bitrevPermute l).length = l.length := by
  simp [bitrevPermute]

/-- The arm_cfft_instance_f32 structure from the generated bindings.
Modelled from the spec: the wrapper code reads only the fftLen field; the
coefficient table contents are consumed solely by the external kernel,
which is a function parameter here. -/
structure ArmCfftInstanceF32 where
  fftLen : Nat
deriving DecidableEq

/-- The arm_cfft_instance_q15 structure from the generated bindings
(modelled as for the f32 variant). -/
structure ArmCfftInstanceQ15 where
  fftLen : Nat
deriving DecidableEq

/-- The arm_cfft_instance_q31 structure from the generated bindings
(modelled as for the f32 variant). -/
structure ArmCfftInstanceQ31 where
  fftLen : Nat
deriving DecidableEq

/-- Modelled from the spec: the static per-size coefficient table
arm_cfft_sR_f32_len16 from the generated bindings (one read-only table per
supported size, matched by exact size). -/
def arm_cfft_sR_f32_len16 : ArmCfftInstanceF32 := ⟨16⟩

def arm_cfft_sR_f32_len32 : ArmCfftInstanceF32 := ⟨32⟩

def arm_cfft_sR_f32_len64 : ArmCfftInstanceF32 := ⟨64⟩

def arm_cfft_sR_f32_len128 : ArmCfftInstanceF32 := ⟨128⟩

def arm_cfft_sR_f32_len256 : ArmCfftInstanceF32 := ⟨256⟩

def arm_cfft_sR_f32_len512 : ArmCfftInstanceF32 := ⟨512⟩

def arm_cfft_sR_f32_len1024 : ArmCfftInstanceF32 := ⟨1024⟩

def arm_cfft_sR_f32_len2048 : ArmCfftInstanceF32 := ⟨2048⟩

def arm_cfft_sR_f32_len4096 : ArmCfftInstanceF32 := ⟨4096⟩

/-- Modelled from the spec: the static per-size Q1.15 coefficient tables
from the generated bindings. -/
def arm_cfft_sR_q15_len16 : ArmCfftInstanceQ15 := ⟨16⟩

def arm_cfft_sR_q15_len32 : ArmCfftInstanceQ15 := ⟨32⟩

def arm_cfft_sR_q15_len64 : ArmCfftInstanceQ15 := ⟨64⟩

def arm_cfft_sR_q15_len128 : ArmCfftInstanceQ15 := ⟨128⟩

def arm_cfft_sR_q15_len256 : ArmCfftInstanceQ15 := ⟨256⟩

def arm_cfft_sR_q15_len512 : ArmCfftInstanceQ15 := ⟨512⟩

def arm_cfft_sR_q15_len1024 : ArmCfftInstanceQ15 := ⟨1024⟩

def arm_cfft_sR_q15_len2048 : ArmCfftInstanceQ15 := ⟨2048⟩

def arm_cfft_sR_q15_len4096 : ArmCfftInstanceQ15 := ⟨4096⟩

/-- Modelled from the spec: the static per-size Q1.31 coefficient tables
from the generated bindings. -/
def arm_cfft_sR_q31_len16 : ArmCfftInstanceQ31 := ⟨16⟩

def arm_cfft_sR_q31_len32 : ArmCfftInstanceQ31 := ⟨32⟩

def arm_cfft_sR_q31_len64 : ArmCfftInstanceQ31 := ⟨64⟩

def arm_cfft_sR_q31_len128 : ArmCfftInstanceQ31 := ⟨128⟩

def arm_cfft_sR_q31_len256 : ArmCfftInstanceQ31 := ⟨256⟩

def arm_cfft_sR_q31_len512 : ArmCfftInstanceQ31 := ⟨512⟩

def arm_cfft_sR_q31_len1024 : ArmCfftInstanceQ31 := ⟨1024⟩

def arm_cfft_sR_q31_len2048 : ArmCfftInstanceQ31 := ⟨2048⟩

def arm_cfft_sR_q31_len4096 : ArmCfftInstanceQ31 := ⟨4096⟩

/-- Type of the external f32 complex butterfly computation: everything
arm_cfft_f32 does before the output-order permutation.  The spec does not
pin this arithmetic, so theorems quantify over it. -/
def RawCfftF32 : Type :=
  ArmCfftInstanceF32 → List Complex32 → Direction → List Complex32

/-- Type of the external Q1.15 complex butterfly computation. -/
def RawCfftQ15 : Type :=
  ArmCfftInstanceQ15 → List ComplexQ15 → Direction → List ComplexQ15

/-- Type of the external Q1.31 complex butterfly computation. -/
def RawCfftQ31 : Type :=
  ArmCfftInstanceQ31 → List ComplexQ31 → Direction → List ComplexQ31

/-- Modelled from the spec: the native arm_cfft_f32 kernel.  Per spec
section 4.5, OutputOrder selects which permutation is applied to the
results, not the numeric values themselves: Raw yields butterfly-order
results and Standard yields the bit-reversal-permuted results.  The
butterfly arithmetic is the raw parameter. -/
def arm_cfft_f32 (raw : RawCfftF32) (inst : ArmCfftInstanceF32)
    (data : List Complex32) (direction : Direction)
    (outputOrder : OutputOrder) : List Complex32 :=
  match outputOrder with
  | OutputOrder.Raw => raw inst data direction
  | OutputOrder.Standard => bitrevPermute (raw inst data direction)

/-- Modelled from the spec: the native arm_cfft_q15 kernel (as for f32). -/
def arm_cfft_q15 (raw : RawCfftQ15) (inst : ArmCfftInstanceQ15)
    (data : List ComplexQ15) (direction : Direction)
    (outputOrder : OutputOrder) : List ComplexQ15 :=
  match outputOrder with
  | OutputOrder.Raw => raw inst data direction
  | OutputOrder.Standard => bitrevPermute (raw inst data direction)

/-- Modelled from the spec: the native arm_cfft_q31 kernel (as for f32). -/
def arm_cfft_q31 (raw : RawCfftQ31) (inst : ArmCfftInstanceQ31)
    (data : List ComplexQ31) (direction : Direction)
    (outputOrder : OutputOrder) : List ComplexQ31 :=
  match outputOrder with
  | OutputOrder.Raw => raw inst data direction
  | OutputOrder.Standard => bitrevPermute (raw inst data direction)

/-- FloatFft (src/src/transform.rs lines 167-171): holds a pointer to the
selected read-only coefficient table. -/
structure FloatFft where
  inst : ArmCfftInstanceF32
deriving DecidableEq

/-- FloatFft::new (src/src/transform.rs lines 180-196): selects the static
table matching the size, or fails with Error::Argument. -/
def FloatFft.new (size : Nat) : Except Error FloatFft :=
  if size = 16 then Except.ok ⟨arm_cfft_sR_f32_len16⟩
  else if size = 32 then Except.ok ⟨arm_cfft_sR_f32_len32⟩
  else if size = 64 then Except.ok ⟨arm_cfft_sR_f32_len64⟩
  else if size = 128 then Except.ok ⟨arm_cfft_sR_f32_len128⟩
  else if size = 256 then Except.ok ⟨arm_cfft_sR_f32_len256⟩
  else if size = 512 then Except.ok ⟨arm_cfft_sR_f32_len512⟩
  else if size = 1024 then Except.ok ⟨arm_cfft_sR_f32_len1024⟩
  else if size = 2048 then Except.ok ⟨arm_cfft_sR_f32_len2048⟩
  else if size = 4096 then Except.ok ⟨arm_cfft_sR_f32_len4096⟩
  else Except.error Error.Argument

/-- FloatFft::run (src/src/transform.rs lines 199-211): checks the buffer
length against the configured size of the instance, then runs the kernel
in place with the per-call direction and output order.  none models the
panic of the length check. -/
def FloatFft.run (raw : RawCfftF32) (e : FloatFft) (data : List Complex32)
    (direction : Direction) (outputOrder : OutputOrder) :
    Option (List Complex32) :=
  match check_fft_size U16_BOUND e.inst.fftLen data.length with
  | none => none
  | some _ => some (arm_cfft_f32 raw e.inst data direction outputOrder)

/-- float_fft_128 (src/src/transform.rs lines 218-227): runs the 128-bin
kernel directly against the len128 static table, skipping the length
check. -/
def float_fft_128 (raw : RawCfftF32) (data : List Complex32)
    (direction : Direction) (outputOrder : OutputOrder) : List Complex32 :=
  arm_cfft_f32 raw arm_cfft_sR_f32_len128 data direction outputOrder

/-- The FftBuffer impl for [Complex32; 16] (src/src/transform.rs): runs the
kernel against the len16 static table with no length check. -/
def run_fft_len16 (raw : RawCfftF32) (data : List Complex32)
    (direction : Direction) (outputOrder : OutputOrder) : List Complex32 :=
  arm_cfft_f32 raw arm_cfft_sR_f32_len16 data direction outputOrder

/-- The FftBuffer impl for [Complex32; 32]. -/
def run_fft_len32 (raw : RawCfftF32) (data : List Complex32)
    (direction : Direction) (outputOrder : OutputOrder) : List Complex32 :=
  arm_cfft_f32 raw arm_cfft_sR_f32_len32 data direction outputOrder

/-- The FftBuffer impl for [Complex32; 64]. -/
def run_fft_len64 (raw : RawCfftF32) (data : List Complex32)
    (direction : Direction) (outputOrder : OutputOrder) : List Complex32 :=
  arm_cfft_f32 raw arm_cfft_sR_f32_len64 data direction outputOrder

/-- The FftBuffer impl for [Complex32; 128] (src/src/transform.rs lines
278-289). -/
def run_fft_len128 (raw : RawCfftF32) (data : List Complex32)
    (direction : Direction) (outputOrder : OutputOrder) : List Complex32 :=
  arm_cfft_f32 raw arm_cfft_sR_f32_len128 data direction outputOrder

/-- The FftBuffer impl for [Complex32; 256]. -/
def run_fft_len256 (raw : RawCfftF32) (data : List Complex32)
    (direction : Direction) (outputOrder : OutputOrder) : List Complex32 :=
  arm_cfft_f32 raw arm_cfft_sR_f32_len256 data direction outputOrder

/-- The FftBuffer impl for [Complex32; 512]. -/
def run_fft_len512 (raw : RawCfftF32) (data : List Complex32)
    (direction : Direction) (outputOrder : OutputOrder) : List Complex32 :=
  arm_cfft_f32 raw arm_cfft_sR_f32_len512 data direction outputOrder

/-- The FftBuffer impl for [Complex32; 1024]. -/
def run_fft_len1024 (raw : RawCfftF32) (data : List Complex32)
    (direction : Direction) (outputOrder : OutputOrder) : List Complex32 :=
  arm_cfft_f32 raw arm_cfft_sR_f32_len1024 data direction outputOrder

/-- The FftBuffer impl for [Complex32; 2048]. -/
def run_fft_len2048 (raw : RawCfftF32) (data : List Complex32)
    (direction : Direction) (outputOrder : OutputOrder) : List Complex32 :=
  arm_cfft_f32 raw arm_cfft_sR_f32_len2048 data direction outputOrder

/-- The FftBuffer impl for [Complex32; 4096]. -/
def run_fft_len4096 (raw : RawCfftF32) (data : List Complex32)
    (direction : Direction) (outputOrder : OutputOrder) : List Complex32 :=
  arm_cfft_f32 raw arm_cfft_sR_f32_len4096 data direction outputOrder

/-- Q15Fft (src/src/transform.rs lines 352-359): holds the selected table
pointer plus the transform direction and output order fixed at
construction. -/
structure Q15Fft where
  inst : ArmCfftInstanceQ15
  direction : Direction
  output_order : OutputOrder
deriving DecidableEq

/-- Q15Fft::new (src/src/transform.rs lines 368-389): selects the static
table matching the size and stores the direction and output order, or
fails with Error::Argument. -/
def Q15Fft.new (size : Nat) (direction : Direction)
    (output_order : OutputOrder) : Except Error Q15Fft :=
  if size = 16 then Except.ok ⟨arm_cfft_sR_q15_len16, direction, output_order⟩
  else if size = 32 then Except.ok ⟨arm_cfft_sR_q15_len32, direction, output_order⟩
  else if size = 64 then Except.ok ⟨arm_cfft_sR_q15_len64, direction, output_order⟩
  else if size = 128 then Except.ok ⟨arm_cfft_sR_q15_len128, direction, output_order⟩
  else if size = 256 then Except.ok ⟨arm_cfft_sR_q15_len256, direction, output_order⟩
  else if size = 512 then Except.ok ⟨arm_cfft_sR_q15_len512, direction, output_order⟩
  else if size = 1024 then Except.ok ⟨arm_cfft_sR_q15_len1024, direction, output_order⟩
  else if size = 2048 then Except.ok ⟨arm_cfft_sR_q15_len2048, direction, output_order⟩
  else if size = 4096 then Except.ok ⟨arm_cfft_sR_q15_len4096, direction, output_order⟩
  else Except.error Error.Argument

/-- Q15Fft::run (src/src/transform.rs lines 392-404): checks the buffer
length, then runs the kernel with the direction and output order stored at
construction time. -/
def Q15Fft.run (raw : RawCfftQ15) (e : Q15Fft) (data : List ComplexQ15) :
    Option (List ComplexQ15) :=
  match check_fft_size U16_BOUND e.inst.fftLen data.length with
  | none => none
  | some _ => some (arm_cfft_q15 raw e.inst data e.direction e.output_order)

/-- Q31Fft (src/src/transform.rs lines 407-411): holds only the selected
table pointer; no direction or output order is stored. -/
structure Q31Fft where
  inst : ArmCfftInstanceQ31
deriving DecidableEq

/-- Q31Fft::new (src/src/transform.rs lines 420-435): takes only a size,
selecting the matching static table or failing with Error::Argument. -/
def Q31Fft.new (size : Nat) : Except Error Q31Fft :=
  if size = 16 then Except.ok ⟨arm_cfft_sR_q31_len16⟩
  else if size = 32 then Except.ok ⟨arm_cfft_sR_q31_len32⟩
  else if size = 64 then Except.ok ⟨arm_cfft_sR_q31_len64⟩
  else if size = 128 then Except.ok ⟨arm_cfft_sR_q31_len128⟩
  else if size = 256 then Except.ok ⟨arm_cfft_sR_q31_len256⟩
  else if size = 512 then Except.ok ⟨arm_cfft_sR_q31_len512⟩
  else if size = 1024 then Except.ok ⟨arm_cfft_sR_q31_len1024⟩
  else if size = 2048 then Except.ok ⟨arm_cfft_sR_q31_len2048⟩
  else if size = 4096 then Except.ok ⟨arm_cfft_sR_q31_len4096⟩
  else Except.error Error.Argument

/-- Q31Fft::run (src/src/transform.rs lines 439-457): checks the buffer
length, then runs the kernel with the per-call direction and output
order. -/
def Q31Fft.run (raw : RawCfftQ31) (e : Q31Fft) (data : List ComplexQ31)
    (direction : Direction) (outputOrder : OutputOrder) :
    Option (List ComplexQ31) :=
  match check_fft_size U16_BOUND e.inst.fftLen data.length with
  | none => none
  | some _ => some (arm_cfft_q31 raw e.inst data direction outputOrder)

/-- The arm_rfft_fast_instance_f32 structure from the generated bindings.
Modelled from the spec: the wrapper reads only the fftLenRFFT field. -/
structure ArmRfftFastInstanceF32 where
  fftLenRFFT : Nat
deriving DecidableEq

/-- The arm_rfft_instance_q15 structure from the generated bindings.
Modelled from the spec: the fixed-point real engines take an explicit
direction and output order at construction, stored in the instance; the
wrapper reads only the fftLenReal field afterwards. -/
structure ArmRfftInstanceQ15 where
  fftLenReal : Nat
  ifftFlagR : Direction
  bitReverseFlagR : OutputOrder
deriving DecidableEq

/-- The arm_rfft_instance_q31 structure from the generated bindings
(modelled as for the q15 variant). -/
structure ArmRfftInstanceQ31 where
  fftLenReal : Nat
  ifftFlagR : Direction
  bitReverseFlagR : OutputOrder
deriving DecidableEq

/-- Modelled from the spec: arm_rfft_fast_init_f32 from the native
library.  Real engines support sizes 32 through 4096 (no 16); an
unsupported size yields an Argument-class status, surfaced by the
check_status conversion in src/src/lib.rs. -/
def arm_rfft_fast_init_f32 (size : Nat) : Except Error ArmRfftFastInstanceF32 :=
  if size = 32 then Except.ok ⟨32⟩
  else if size = 64 then Except.ok ⟨64⟩
  else if size = 128 then Except.ok ⟨128⟩
  else if size = 256 then Except.ok ⟨256⟩
  else if size = 512 then Except.ok ⟨512⟩
  else if size = 1024 then Except.ok ⟨1024⟩
  else if size = 2048 then Except.ok ⟨2048⟩
  else if size = 4096 then Except.ok ⟨4096⟩
  else Except.error Error.Argument

/-- Modelled from the spec: arm_rfft_init_q15, which additionally records
the construction-time direction and output order in the instance. -/
def arm_rfft_init_q15 (size : Nat) (direction : Direction)
    (output_order : OutputOrder) : Except Error ArmRfftInstanceQ15 :=
  if size = 32 then Except.ok ⟨32, direction, output_order⟩
  else if size = 64 then Except.ok ⟨64, direction, output_order⟩
  else if size = 128 then Except.ok ⟨128, direction, output_order⟩
  else if size = 256 then Except.ok ⟨256, direction, output_order⟩
  else if size = 512 then Except.ok ⟨512, direction, output_order⟩
  else if size = 1024 then Except.ok ⟨1024, direction, output_order⟩
  else if size = 2048 then Except.ok ⟨2048, direction, output_order⟩
  else if size = 4096 then Except.ok ⟨4096, direction, output_order⟩
  else Except.error Error.Argument

/-- Modelled from the spec: arm_rfft_init_q31 (as for q15). -/
def arm_rfft_init_q31 (size : Nat) (direction : Direction)
    (output_order : OutputOrder) : Except Error ArmRfftInstanceQ31 :=
  if size = 32 then Except.ok ⟨32, direction, output_order⟩
  else if size = 64 then Except.ok ⟨64, direction, output_order⟩
  else if size = 128 then Except.ok ⟨128, direction, output_order⟩
  else if size = 256 then Except.ok ⟨256, direction, output_order⟩
  else if size = 512 then Except.ok ⟨512, direction, output_order⟩
  else if size = 1024 then Except.ok ⟨1024, direction, output_order⟩
  else if size = 2048 then Except.ok ⟨2048, direction, output_order⟩
  else if size = 4096 then Except.ok ⟨4096, direction, output_order⟩
  else Except.error Error.Argument

/-- Type of the external f32 real-FFT computation (arm_rfft_fast_f32):
per spec section 4.4 it reads the input buffer and the direction and
produces the packed output spectrum, writing only the output buffer and
leaving the input unchanged (modelled by its type: a pure function of the
input). -/
def RawRfftF32 : Type :=
  ArmRfftFastInstanceF32 → List F32 → Direction → List F32

/-- Type of the external Q1.15 real-FFT computation (arm_rfft_q15); the
direction and output order are read from the instance. -/
def RawRfftQ15 : Type := ArmRfftInstanceQ15 → List Q15 → List ℤ

/-- Type of the external Q1.31 real-FFT computation (arm_rfft_q31). -/
def RawRfftQ31 : Type := ArmRfftInstanceQ31 → List Q31 → List ℤ

/-- FloatRealFft (src/src/transform.rs line 40): wraps the rfft-fast
instance. -/
structure FloatRealFft where
  inst : ArmRfftFastInstanceF32
deriving DecidableEq

/-- FloatRealFft::new (src/src/transform.rs lines 49-55). -/
def FloatRealFft.new (size : Nat) : Except Error FloatRealFft :=
  Except.map FloatRealFft.mk (arm_rfft_fast_init_f32 size)

/-- FloatRealFft::run_inner (src/src/transform.rs lines 74-87): checks
both buffer lengths against the configured size, then invokes the native
kernel.  The result is the final contents of the (input, output) buffer
pair; none models the panic of a failed length check, before any buffer is
written. -/
def FloatRealFft.run_inner (k : RawRfftF32) (e : FloatRealFft)
    (input output : List F32) (direction : Direction) :
    Option (List F32 × List F32) :=
  match check_fft_size U16_BOUND e.inst.fftLenRFFT input.length with
  | none => none
  | some _ =>
    match check_fft_size U16_BOUND e.inst.fftLenRFFT output.length with
    | none => none
    | some _ => some (input, k e.inst input direction)

/-- FloatRealFft::run (src/src/transform.rs lines 62-64). -/
def FloatRealFft.run (k : RawRfftF32) (e : FloatRealFft)
    (input output : List F32) : Option (List F32 × List F32) :=
  FloatRealFft.run_inner k e input output Direction.Forward

/-- FloatRealFft::run_inverse (src/src/transform.rs lines 70-72). -/
def FloatRealFft.run_inverse (k : RawRfftF32) (e : FloatRealFft)
    (input output : List F32) : Option (List F32 × List F32) :=
  FloatRealFft.run_inner k e input output Direction.Inverse

/-- Q15RealFft (src/src/transform.rs line 91). -/
structure Q15RealFft where
  inst : ArmRfftInstanceQ15
deriving DecidableEq

/-- Q15RealFft::new (src/src/transform.rs lines 100-112). -/
def Q15RealFft.new (size : Nat) (direction : Direction)
    (output_order : OutputOrder) : Except Error Q15RealFft :=
  Except.map Q15RealFft.mk (arm_rfft_init_q15 size direction output_order)

/-- Q15RealFft::run (src/src/transform.rs lines 119-126): checks both
buffer lengths against fftLenReal (a u32 field), then invokes the native
kernel, producing the final (input, output) pair. -/
def Q15RealFft.run (k : RawRfftQ15) (e : Q15RealFft)
    (input : List Q15) (output : List ℤ) : Option (List Q15 × List ℤ) :=
  match check_fft_size U32_BOUND e.inst.fftLenReal input.length with
  | none => none
  | some _ =>
    match check_fft_size U32_BOUND e.inst.fftLenReal output.length with
    | none => none
    | some _ => some (input, k e.inst input)

/-- Q31RealFft (src/src/transform.rs line 129). -/
structure Q31RealFft where
  inst : ArmRfftInstanceQ31
deriving DecidableEq

/-- Q31RealFft::new (src/src/transform.rs lines 138-150). -/
def Q31RealFft.new (size : Nat) (direction : Direction)
    (output_order : OutputOrder) : Except Error Q31RealFft :=
  Except.map Q31RealFft.mk (arm_rfft_init_q31 size direction output_order)

/-- Q31RealFft::run (src/src/transform.rs lines 157-164). -/
def Q31RealFft.run (k : RawRfftQ31) (e : Q31RealFft)
    (input : List Q31) (output : List ℤ) : Option (List Q31 × List ℤ) :=
  match check_fft_size U32_BOUND e.inst.fftLenReal input.length with
  | none => none
  | some _ =>
    match check_fft_size U32_BOUND e.inst.fftLenReal output.length with
    | none => none
    | some _ => some (input, k e.inst input)

/-- The engine-plus-buffer state transition for FloatFft::run: the Rust
call mutates the buffer through the borrow and leaves the engine (borrowed
by shared reference; the native kernel treats the table as read-only per
the spec) in place. -/
def FloatFft.runState (raw : RawCfftF32) (e : FloatFft)
    (data : List Complex32) (direction : Direction)
    (outputOrder : OutputOrder) : Option (FloatFft × List Complex32) :=
  Option.map (fun out => (e, out)) (FloatFft.run raw e data direction outputOrder)

/-- The engine-plus-buffer state transition for Q15Fft::run. -/
def Q15Fft.runState (raw : RawCfftQ15) (e : Q15Fft)
    (data : List ComplexQ15) : Option (Q15Fft × List ComplexQ15) :=
  Option.map (fun out => (e, out)) (Q15Fft.run raw e data)

/-- The engine-plus-buffer state transition for Q31Fft::run. -/
def Q31Fft.runState (raw : RawCfftQ31) (e : Q31Fft)
    (data : List ComplexQ31) (direction : Direction)
    (outputOrder : OutputOrder) : Option (Q31Fft × List ComplexQ31) :=
  Option.map (fun out => (e, out)) (Q31Fft.run raw e data direction outputOrder)

/-- The engine-plus-buffers state transition for FloatRealFft::run_inner. -/
def FloatRealFft.runState (k : RawRfftF32) (e : FloatRealFft)
    (input output : List F32) (direction : Direction) :
    Option (FloatRealFft × List F32 × List F32) :=
  Option.map (fun p => (e, p)) (FloatRealFft.run_inner k e input output direction)

/-- The engine-plus-buffers state transition for Q15RealFft::run. -/
def Q15RealFft.runState (k : RawRfftQ15) (e : Q15RealFft)
    (input : List Q15) (output : List ℤ) :
    Option (Q15RealFft × List Q15 × List ℤ) :=
  Option.map (fun p => (e, p)) (Q15RealFft.run k e input output)

/-- The engine-plus-buffers state transition for Q31RealFft::run. -/
def Q31RealFft.runState (k : RawRfftQ31) (e : Q31RealFft)
    (input : List Q31) (output : List ℤ) :
    Option (Q31RealFft × List Q31 × List ℤ) :=
  Option.map (fun p => (e, p)) (Q31RealFft.run k e input output)

/-- Smallest representable bit pattern of a signed fixed-point value with
n fractional bits (1 sign/integer bit). -/
def qMin (n : Nat) : ℤ := -(2 ^ n)

/-- Largest representable bit pattern. -/
def qMax (n : Nat) : ℤ := 2 ^ n - 1

/-- Saturation to the representable range of an n-fractional-bit
fixed-point value: clamps to the extreme instead of wrapping (spec
glossary, saturating arithmetic). -/
def satBits (n : Nat) (x : ℤ) : ℤ :=
  if x < qMin n then qMin n
  else if qMax n < x then qMax n
  else x

/-- Modelled from the spec: the per-element saturating Q1.15 addition
performed by the native arm_add_q15 kernel. -/
def add_q15_elem (a b : ℤ) : ℤ := satBits 15 (a + b)

/-- Modelled from the spec: the per-element saturating Q1.31 addition
performed by arm_add_q31. -/
def add_q31_elem (a b : ℤ) : ℤ := satBits 31 (a + b)

/-- Modelled from the spec: the per-element saturating Q1.7 addition
performed by arm_add_q7. -/
def add_q7_elem (a b : ℤ) : ℤ := satBits 7 (a + b)

/-- Modelled from the spec: the per-element saturating Q1.15
multiplication performed by arm_mult_q15: the double-width product is
rescaled by an arithmetic right shift of 15 (floor division, here
Euclidean division by the positive constant, which coincides with floor)
and then saturated. -/
def mult_q15_elem (a b : ℤ) : ℤ := satBits 15 (Int.ediv (a * b) (2 ^ 15))

/-- Modelled from the spec: the per-element saturating Q1.31
multiplication performed by arm_mult_q31 (product rescaled by 31 bits,
then saturated). -/
def mult_q31_elem (a b : ℤ) : ℤ := satBits 31 (Int.ediv (a * b) (2 ^ 31))

/-- Modelled from the spec: the per-element saturating Q1.7 multiplication
performed by arm_mult_q7. -/
def mult_q7_elem (a b : ℤ) : ℤ := satBits 7 (Int.ediv (a * b) (2 ^ 7))

/-- Modelled from the spec: the per-element saturating Q1.15 absolute
value performed by arm_abs_q15 (the absolute value of the minimum
saturates to the maximum). -/
def abs_q15_elem (a : ℤ) : ℤ := satBits 15 |a|

/-- Modelled from the spec: the per-element saturating Q1.31 absolute
value performed by arm_abs_q31. -/
def abs_q31_elem (a : ℤ) : ℤ := satBits 31 |a|

/-- Modelled from the spec: the per-element saturating Q1.7 absolute value
performed by arm_abs_q7. -/
def abs_q7_elem (a : ℤ) : ℤ := satBits 7 |a|

/-- Modelled from the spec: the native arm_abs_f32 kernel computes
dst[i] = abs(src[i]) for every i below blockSize.  The f32 scalar
operation is external, so it is the absK parameter. -/
def arm_abs_f32 (absK : F32 → F32) (src : List F32) (blockSize : Nat) :
    List F32 :=
  List.map absK (src.take blockSize)

/-- Modelled from the spec: arm_abs_q15, elementwise saturating absolute
value over blockSize elements. -/
def arm_abs_q15 (src : List Q15) (blockSize : Nat) : List Q15 :=
  List.map abs_q15_elem (src.take blockSize)

/-- Modelled from the spec: arm_abs_q31. -/
def arm_abs_q31 (src : List Q31) (blockSize : Nat) : List Q31 :=
  List.map abs_q31_elem (src.take blockSize)

/-- Modelled from the spec: arm_abs_q7. -/
def arm_abs_q7 (src : List Q7) (blockSize : Nat) : List Q7 :=
  List.map abs_q7_elem (src.take blockSize)

/-- Modelled from the spec: arm_add_f32 computes dst[i] = src1[i] +
src2[i] over blockSize elements; the f32 scalar addition is the addK
parameter. -/
def arm_add_f32 (addK : F32 → F32 → F32) (src1 src2 : List F32)
    (blockSize : Nat) : List F32 :=
  List.map (fun p => addK p.1 p.2) ((src1.zip src2).take blockSize)

/-- Modelled from the spec: arm_add_q15, elementwise saturating add. -/
def arm_add_q15 (src1 src2 : List Q15) (blockSize : Nat) : List Q15 :=
  List.map (fun p => add_q15_elem p.1 p.2) ((src1.zip src2).take blockSize)

/-- Modelled from the spec: arm_add_q31. -/
def arm_add_q31 (src1 src2 : List Q31) (blockSize : Nat) : List Q31 :=
  List.map (fun p => add_q31_elem p.1 p.2) ((src1.zip src2).take blockSize)

/-- Modelled from the spec: arm_add_q7. -/
def arm_add_q7 (src1 src2 : List Q7) (blockSize : Nat) : List Q7 :=
  List.map (fun p => add_q7_elem p.1 p.2) ((src1.zip src2).take blockSize)

/-- Modelled from the spec: arm_mult_f32 computes dst[i] = src1[i] *
src2[i]; the f32 scalar multiplication is the mulK parameter. -/
def arm_mult_f32 (mulK : F32 → F32 → F32) (src1 src2 : List F32)
    (blockSize : Nat) : List F32 :=
  List.map (fun p => mulK p.1 p.2) ((src1.zip src2).take blockSize)

/-- Modelled from the spec: arm_mult_q15, elementwise saturating
multiply. -/
def arm_mult_q15 (src1 src2 : List Q15) (blockSize : Nat) : List Q15 :=
  List.map (fun p => mult_q15_elem p.1 p.2) ((src1.zip src2).take blockSize)

/-- Modelled from the spec: arm_mult_q31. -/
def arm_mult_q31 (src1 src2 : List Q31) (blockSize : Nat) : List Q31 :=
  List.map (fun p => mult_q31_elem p.1 p.2) ((src1.zip src2).take blockSize)

/-- Modelled from the spec: arm_mult_q7. -/
def arm_mult_q7 (src1 src2 : List Q7) (blockSize : Nat) : List Q7 :=
  List.map (fun p => mult_q7_elem p.1 p.2) ((src1.zip src2).take blockSize)

/-- Modelled from the spec: arm_dot_prod_f32 accumulates the sum of
elementwise products over blockSize elements into the accumulator it was
handed (initialized by the wrapper).  The f32 multiply-accumulate step is
the mac parameter. -/
def arm_dot_prod_f32 (mac : F32 → F32 → F32 → F32) (src1 src2 : List F32)
    (blockSize : Nat) (init : F32) : F32 :=
  List.foldl (fun acc p => mac acc p.1 p.2) init ((src1.zip src2).take blockSize)

/-- Modelled from the spec: arm_dot_prod_q31 accumulates into the wide
Q16.48 accumulator it was handed; the fixed-point multiply-accumulate step
is the mac parameter. -/
def arm_dot_prod_q31 (mac : ℤ → Q31 → Q31 → ℤ) (src1 src2 : List Q31)
    (blockSize : Nat) (init : ℤ) : ℤ :=
  List.foldl (fun acc p => mac acc p.1 p.2) init ((src1.zip src2).take blockSize)

/-- Modelled from the spec: arm_dot_prod_q15 accumulates into the wide
Q34.30 accumulator. -/
def arm_dot_prod_q15 (mac : ℤ → Q15 → Q15 → ℤ) (src1 src2 : List Q15)
    (blockSize : Nat) (init : ℤ) : ℤ :=
  List.foldl (fun acc p => mac acc p.1 p.2) init ((src1.zip src2).take blockSize)

/-- Modelled from the spec: arm_dot_prod_q7 accumulates into the wide
Q18.14 accumulator. -/
def arm_dot_prod_q7 (mac : ℤ → Q7 → Q7 → ℤ) (src1 src2 : List Q7)
    (blockSize : Nat) (init : ℤ) : ℤ :=
  List.foldl (fun acc p => mac acc p.1 p.2) init ((src1.zip src2).take blockSize)

/-- abs_f32 (src/src/basic.rs lines 16-21): validates the two lengths,
then invokes the kernel.  none models the panic of check_length, before
any buffer is written; some holds the final contents of dst. -/
def abs_f32 (absK : F32 → F32) (src dst : List F32) : Option (List F32) :=
  Option.map (fun length => arm_abs_f32 absK src length)
    (check_length2 src.length dst.length)

/-- abs_q31 (src/src/basic.rs lines 31-36). -/
def abs_q31 (src dst : List Q31) : Option (List Q31) :=
  Option.map (fun length => arm_abs_q31 src length)
    (check_length2 src.length dst.length)

/-- abs_q15 (src/src/basic.rs lines 46-51). -/
def abs_q15 (src dst : List Q15) : Option (List Q15) :=
  Option.map (fun length => arm_abs_q15 src length)
    (check_length2 src.length dst.length)

/-- abs_q7 (src/src/basic.rs lines 61-66). -/
def abs_q7 (src dst : List Q7) : Option (List Q7) :=
  Option.map (fun length => arm_abs_q7 src length)
    (check_length2 src.length dst.length)

/-- add_f32 (src/src/basic.rs lines 126-131): validates the three
lengths, then invokes the kernel. -/
def add_f32 (addK : F32 → F32 → F32) (src1 src2 dst : List F32) :
    Option (List F32) :=
  Option.map (fun length => arm_add_f32 addK src1 src2 length)
    (check_length3 src1.length src2.length dst.length)

/-- add_q31 (src/src/basic.rs lines 141-151). -/
def add_q31 (src1 src2 dst : List Q31) : Option (List Q31) :=
  Option.map (fun length => arm_add_q31 src1 src2 length)
    (check_length3 src1.length src2.length dst.length)

/-- add_q15 (src/src/basic.rs lines 161-171). -/
def add_q15 (src1 src2 dst : List Q15) : Option (List Q15) :=
  Option.map (fun length => arm_add_q15 src1 src2 length)
    (check_length3 src1.length src2.length dst.length)

/-- add_q7 (src/src/basic.rs lines 181-191). -/
def add_q7 (src1 src2 dst : List Q7) : Option (List Q7) :=
  Option.map (fun length => arm_add_q7 src1 src2 length)
    (check_length3 src1.length src2.length dst.length)

/-- multiply_f32 (src/src/basic.rs lines 284-289). -/
def multiply_f32 (mulK : F32 → F32 → F32) (src1 src2 dst : List F32) :
    Option (List F32) :=
  Option.map (fun length => arm_mult_f32 mulK src1 src2 length)
    (check_length3 src1.length src2.length dst.length)

/-- multiply_q31 (src/src/basic.rs lines 299-309). -/
def multiply_q31 (src1 src2 dst : List Q31) : Option (List Q31) :=
  Option.map (fun length => arm_mult_q31 src1 src2 length)
    (check_length3 src1.length src2.length dst.length)

/-- multiply_q15 (src/src/basic.rs lines 319-329). -/
def multiply_q15 (src1 src2 dst : List Q15) : Option (List Q15) :=
  Option.map (fun length => arm_mult_q15 src1 src2 length)
    (check_length3 src1.length src2.length dst.length)

/-- multiply_q7 (src/src/basic.rs lines 339-349). -/
def multiply_q7 (src1 src2 dst : List Q7) : Option (List Q7) :=
  Option.map (fun length => arm_mult_q7 src1 src2 length)
    (check_length3 src1.length src2.length dst.length)

/-- dot_product_f32 (src/src/basic.rs lines 201-208): validates the two
lengths, initializes the result to 0.0, and hands it to the kernel. -/
def dot_product_f32 (mac : F32 → F32 → F32 → F32) (src1 src2 : List F32) :
    Option F32 :=
  Option.map (fun length => arm_dot_prod_f32 mac src1 src2 length 0)
    (check_length2 src1.length src2.length)

/-- dot_product_q31 (src/src/basic.rs lines 218-230): the result is
I16F48::from_bits(0) before the kernel accumulates into it. -/
def dot_product_q31 (mac : ℤ → Q31 → Q31 → ℤ) (src1 src2 : List Q31) :
    Option ℤ :=
  Option.map (fun length => arm_dot_prod_q31 mac src1 src2 length 0)
    (check_length2 src1.length src2.length)

/-- dot_product_q15 (src/src/basic.rs lines 240-252): the result is
I34F30::from_bits(0) before the kernel accumulates into it. -/
def dot_product_q15 (mac : ℤ → Q15 → Q15 → ℤ) (src1 src2 : List Q15) :
    Option ℤ :=
  Option.map (fun length => arm_dot_prod_q15 mac src1 src2 length 0)
    (check_length2 src1.length src2.length)

/-- dot_product_q7 (src/src/basic.rs lines 262-274). -/
def dot_product_q7 (mac : ℤ → Q7 → Q7 → ℤ) (src1 src2 : List Q7) :
    Option ℤ :=
  Option.map (fun length => arm_dot_prod_q7 mac src1 src2 length 0)
    (check_length2 src1.length src2.length)

/-- abs_in_place_f32 (src/src/basic.rs lines 72-80): validates that the
single buffer length fits the native u32 block-size parameter, then runs
the kernel with source and destination aliased (the elementwise kernel is
alias-safe); some holds the final contents of values, none models the
panic of the narrowing check. -/
def abs_in_place_f32 (absK : F32 → F32) (values : List F32) :
    Option (List F32) :=
  Option.map (fun length => arm_abs_f32 absK values length)
    (check_length1 values.length)

/-- abs_in_place_q31 (src/src/basic.rs lines 86-92). -/
def abs_in_place_q31 (values : List Q31) : Option (List Q31) :=
  Option.map (fun length => arm_abs_q31 values length)
    (check_length1 values.length)

/-- abs_in_place_q15 (src/src/basic.rs lines 98-104). -/
def abs_in_place_q15 (values : List Q15) : Option (List Q15) :=
  Option.map (fun length => arm_abs_q15 values length)
    (check_length1 values.length)

/-- abs_in_place_q7 (src/src/basic.rs lines 110-116). -/
def abs_in_place_q7 (values : List Q7) : Option (List Q7) :=
  Option.map (fun length => arm_abs_q7 values length)
    (check_length1 values.length)

/-- The supported complex-engine size set (the literals matched by
FloatFft::new, Q15Fft::new and Q31Fft::new). -/
def supportedSizes : List Nat := [16, 32, 64, 128, 256, 512, 1024, 2048, 4096]

theorem check_length2_eq (a b : Nat) :
    check_length2 a b = if a = b ∧ a < U32_BOUND then some a else none := by
  by_cases h1 : a = b <;> by_cases h2 : a < U32_BOUND <;>
    simp [check_length2, h1, h2]

theorem check_length3_eq (a b c : Nat) :
    check_length3 a b c =
      if (a = b ∧ b = c) ∧ a < U32_BOUND then some a else none := by
  by_cases h1 : a = b ∧ b = c <;> by_cases h2 : a < U32_BOUND <;>
    simp [check_length3, h1, h2]

theorem check_fft_size_eq (bound size count : Nat) :
    check_fft_size bound size count =
      if count < bound ∧ size = count then some () else none := by
  by_cases h1 : count < bound <;> by_cases h2 : size = count <;>
    simp [check_fft_size, h1, h2]

/-- C2: for every u16-representable size, a size in the supported set
{16, 32, 64, 128, 256, 512, 1024, 2048, 4096} makes FloatFft::new,
Q15Fft::new and Q31Fft::new all return Ok with a constructed engine, and a
size outside the set makes each return Err(Error::Argument). -/
theorem c2_construction_validity (n : Nat) (hn : n < U16_BOUND)
    (d : Direction) (o : OutputOrder) :
    (n ∈ supportedSizes →
      (FloatFft.new n).toOption.isSome = true ∧
      (Q15Fft.new n d o).toOption.isSome = true ∧
      (Q31Fft.new n).toOption.isSome = true) ∧
    (n ∉ supportedSizes →
      FloatFft.new n = Except.error Error.Argument ∧
      Q15Fft.new n d o = Except.error Error.Argument ∧
      Q31Fft.new n = Except.error Error.Argument) := by
  constructor
  · intro hmem
    fin_cases hmem <;> exact ⟨rfl, rfl, rfl⟩
  · intro hmem
    have h16 : n ≠ 16 := by rintro rfl; exact hmem (by decide)
    have h32 : n ≠ 32 := by rintro rfl; exact hmem (by decide)
    have h64 : n ≠ 64 := by rintro rfl; exact hmem (by decide)
    have h128 : n ≠ 128 := by rintro rfl; exact hmem (by decide)
    have h256 : n ≠ 256 := by rintro rfl; exact hmem (by decide)
    have h512 : n ≠ 512 := by rintro rfl; exact hmem (by decide)
    have h1024 : n ≠ 1024 := by rintro rfl; exact hmem (by decide)
    have h2048 : n ≠ 2048 := by rintro rfl; exact hmem (by decide)
    have h4096 : n ≠ 4096 := by rintro rfl; exact hmem (by decide)
    refine ⟨?_, ?_, ?_⟩ <;>
      simp [FloatFft.new, Q15Fft.new, Q31Fft.new, h16, h32, h64, h128,
        h256, h512, h1024, h2048, h4096]

/-- Witness for C2 at the concrete unsupported size 17. -/
theorem c2_construction_validity_witness :
    (17 ∈ supportedSizes →
      (FloatFft.new 17).toOption.isSome = true ∧
      (Q15Fft.new 17 Direction.Forward OutputOrder.Standard).toOption.isSome = true ∧
      (Q31Fft.new 17).toOption.isSome = true) ∧
    (17 ∉ supportedSizes →
      FloatFft.new 17 = Except.error Error.Argument ∧
      Q15Fft.new 17 Direction.Forward OutputOrder.Standard = Except.error Error.Argument ∧
      Q31Fft.new 17 = Except.error Error.Argument) :=
  c2_construction_validity 17 (by decide) Direction.Forward OutputOrder.Standard

theorem zip_take_fst {α β : Type} (a : List α) (b : List β) :
    (a.zip b).take a.length = a.zip b :=
  List.take_of_length_le (by simp)

/-- C3: the shared length contract.  The first four conjuncts and the two
real fixed-point coverage conjuncts near the end state output coverage for
every transform run call (FloatFft, Q15Fft, Q31Fft, FloatRealFft,
Q15RealFft, Q31RealFft): whenever the lengths match (run returns some),
every output index below the configured size is written (the output has
exactly that length), for every length-preserving kernel.  The remaining
conjuncts characterize each basic vector operation (out-of-place and
in-place) and each transform run exactly: if the caller-supplied lengths
differ, or the common length does not fit the downstream native size
integer width, the call panics (none) before writing to any buffer;
otherwise it completes with output defined at every index 0..size (an
elementwise image of the inputs). -/
theorem c3_length_contract :
    (∀ (raw : RawCfftF32),
      (∀ inst l dir, (raw inst l dir).length = l.length) →
      ∀ e data d o out, FloatFft.run raw e data d o = some out →
        out.length = e.inst.fftLen) ∧
    (∀ (raw : RawCfftQ15),
      (∀ inst l dir, (raw inst l dir).length = l.length) →
      ∀ e data out, Q15Fft.run raw e data = some out →
        out.length = e.inst.fftLen) ∧
    (∀ (raw : RawCfftQ31),
      (∀ inst l dir, (raw inst l dir).length = l.length) →
      ∀ e data d o out, Q31Fft.run raw e data d o = some out →
        out.length = e.inst.fftLen) ∧
    (∀ (k : RawRfftF32),
      (∀ inst l dir, (k inst l dir).length = l.length) →
      ∀ e input output d res, FloatRealFft.run_inner k e input output d = some res →
        res.2.length = e.inst.fftLenRFFT) ∧
    (∀ (absK : F32 → F32) (src dst : List F32),
      abs_f32 absK src dst =
        if src.length = dst.length ∧ src.length < U32_BOUND
        then some (List.map absK src) else none) ∧
    (∀ (src dst : List Q31),
      abs_q31 src dst =
        if src.length = dst.length ∧ src.length < U32_BOUND
        then some (List.map abs_q31_elem src) else none) ∧
    (∀ (src dst : List Q15),
      abs_q15 src dst =
        if src.length = dst.length ∧ src.length < U32_BOUND
        then some (List.map abs_q15_elem src) else none) ∧
    (∀ (src dst : List Q7),
      abs_q7 src dst =
        if src.length = dst.length ∧ src.length < U32_BOUND
        then some (List.map abs_q7_elem src) else none) ∧
    (∀ (addK : F32 → F32 → F32) (src1 src2 dst : List F32),
      add_f32 addK src1 src2 dst =
        if (src1.length = src2.length ∧ src2.length = dst.length) ∧
            src1.length < U32_BOUND
        then some (List.map (fun p => addK p.1 p.2) (src1.zip src2)) else none) ∧
    (∀ (src1 src2 dst : List Q31),
      add_q31 src1 src2 dst =
        if (src1.length = src2.length ∧ src2.length = dst.length) ∧
            src1.length < U32_BOUND
        then some (List.map (fun p => add_q31_elem p.1 p.2) (src1.zip src2))
        else none) ∧
    (∀ (src1 src2 dst : List Q15),
      add_q15 src1 src2 dst =
        if (src1.length = src2.length ∧ src2.length = dst.length) ∧
            src1.length < U32_BOUND
        then some (List.map (fun p => add_q15_elem p.1 p.2) (src1.zip src2))
        else none) ∧
    (∀ (src1 src2 dst : List Q7),
      add_q7 src1 src2 dst =
        if (src1.length = src2.length ∧ src2.length = dst.length) ∧
            src1.length < U32_BOUND
        then some (List.map (fun p => add_q7_elem p.1 p.2) (src1.zip src2))
        else none) ∧
    (∀ (mulK : F32 → F32 → F32) (src1 src2 dst : List F32),
      multiply_f32 mulK src1 src2 dst =
        if (src1.length = src2.length ∧ src2.length = dst.length) ∧
            src1.length < U32_BOUND
        then some (List.map (fun p => mulK p.1 p.2) (src1.zip src2)) else none) ∧
    (∀ (src1 src2 dst : List Q31),
      multiply_q31 src1 src2 dst =
        if (src1.length = src2.length ∧ src2.length = dst.length) ∧
            src1.length < U32_BOUND
        then some (List.map (fun p => mult_q31_elem p.1 p.2) (src1.zip src2))
        else none) ∧
    (∀ (src1 src2 dst : List Q15),
      multiply_q15 src1 src2 dst =
        if (src1.length = src2.length ∧ src2.length = dst.length) ∧
            src1.length < U32_BOUND
        then some (List.map (fun p => mult_q15_elem p.1 p.2) (src1.zip src2))
        else none) ∧
    (∀ (src1 src2 dst : List Q7),
      multiply_q7 src1 src2 dst =
        if (src1.length = src2.length ∧ src2.length = dst.length) ∧
            src1.length < U32_BOUND
        then some (List.map (fun p => mult_q7_elem p.1 p.2) (src1.zip src2))
        else none) ∧
    (∀ (mac : F32 → F32 → F32 → F32) (src1 src2 : List F32),
      dot_product_f32 mac src1 src2 =
        if src1.length = src2.length ∧ src1.length < U32_BOUND
        then some (List.foldl (fun acc p => mac acc p.1 p.2) 0 (src1.zip src2))
        else none) ∧
    (∀ (mac : ℤ → Q31 → Q31 → ℤ) (src1 src2 : List Q31),
      dot_product_q31 mac src1 src2 =
        if src1.length = src2.length ∧ src1.length < U32_BOUND
        then some (List.foldl (fun acc p => mac acc p.1 p.2) 0 (src1.zip src2))
        else none) ∧
    (∀ (mac : ℤ → Q15 → Q15 → ℤ) (src1 src2 : List Q15),
      dot_product_q15 mac src1 src2 =
        if src1.length = src2.length ∧ src1.length < U32_BOUND
        then some (List.foldl (fun acc p => mac acc p.1 p.2) 0 (src1.zip src2))
        else none) ∧
    (∀ (mac : ℤ → Q7 → Q7 → ℤ) (src1 src2 : List Q7),
      dot_product_q7 mac src1 src2 =
        if src1.length = src2.length ∧ src1.length < U32_BOUND
        then some (List.foldl (fun acc p => mac acc p.1 p.2) 0 (src1.zip src2))
        else none) ∧
    (∀ (raw : RawCfftF32) (e : FloatFft) (data : List Complex32) d o,
      FloatFft.run raw e data d o =
        if data.length < U16_BOUND ∧ e.inst.fftLen = data.length
        then some (arm_cfft_f32 raw e.inst data d o) else none) ∧
    (∀ (raw : RawCfftQ15) (e : Q15Fft) (data : List ComplexQ15),
      Q15Fft.run raw e data =
        if data.length < U16_BOUND ∧ e.inst.fftLen = data.length
        then some (arm_cfft_q15 raw e.inst data e.direction e.output_order)
        else none) ∧
    (∀ (raw : RawCfftQ31) (e : Q31Fft) (data : List ComplexQ31) d o,
      Q31Fft.run raw e data d o =
        if data.length < U16_BOUND ∧ e.inst.fftLen = data.length
        then some (arm_cfft_q31 raw e.inst data d o) else none) ∧
    (∀ (k : RawRfftF32) (e : FloatRealFft) (input output : List F32) d,
      FloatRealFft.run_inner k e input output d =
        if (input.length < U16_BOUND ∧ e.inst.fftLenRFFT = input.length) ∧
            (output.length < U16_BOUND ∧ e.inst.fftLenRFFT = output.length)
        then some (input, k e.inst input d) else none) ∧
    (∀ (k : RawRfftQ15),
      (∀ inst l, (k inst l).length = l.length) →
      ∀ e input output res, Q15RealFft.run k e input output = some res →
        res.2.length = e.inst.fftLenReal) ∧
    (∀ (k : RawRfftQ31),
      (∀ inst l, (k inst l).length = l.length) →
      ∀ e input output res, Q31RealFft.run k e input output = some res →
        res.2.length = e.inst.fftLenReal) ∧
    (∀ (k : RawRfftQ15) (e : Q15RealFft) (input : List Q15) (output : List ℤ),
      Q15RealFft.run k e input output =
        if (input.length < U32_BOUND ∧ e.inst.fftLenReal = input.length) ∧
            (output.length < U32_BOUND ∧ e.inst.fftLenReal = output.length)
        then some (input, k e.inst input) else none) ∧
    (∀ (k : RawRfftQ31) (e : Q31RealFft) (input : List Q31) (output : List ℤ),
      Q31RealFft.run k e input output =
        if (input.length < U32_BOUND ∧ e.inst.fftLenReal = input.length) ∧
            (output.length < U32_BOUND ∧ e.inst.fftLenReal = output.length)
        then some (input, k e.inst input) else none) ∧
    (∀ (absK : F32 → F32) (values : List F32),
      abs_in_place_f32 absK values =
        if values.length < U32_BOUND
        then some (List.map absK values) else none) ∧
    (∀ (values : List Q31),
      abs_in_place_q31 values =
        if values.length < U32_BOUND
        then some (List.map abs_q31_elem values) else none) ∧
    (∀ (values : List Q15),
      abs_in_place_q15 values =
        if values.length < U32_BOUND
        then some (List.map abs_q15_elem values) else none) ∧
    (∀ (values : List Q7),
      abs_in_place_q7 values =
        if values.length < U32_BOUND
        then some (List.map abs_q7_elem values) else none) := by
  refine ⟨?_, ?_, ?_, ?_, ?_, ?_, ?_, ?_, ?_, ?_, ?_, ?_, ?_, ?_, ?_, ?_,
    ?_, ?_, ?_, ?_, ?_, ?_, ?_, ?_, ?_, ?_, ?_, ?_, ?_, ?_, ?_, ?_⟩
  · intro raw hraw e data d o out hrun
    simp only [FloatFft.run, check_fft_size_eq] at hrun
    split_ifs at hrun with h
    · simp only [Option.some.injEq] at hrun
      subst hrun
      cases o <;> simp [arm_cfft_f32, bitrevPermute_length, hraw, h.2]
  · intro raw hraw e data out hrun
    simp only [Q15Fft.run, check_fft_size_eq] at hrun
    split_ifs at hrun with h
    · simp only [Option.some.injEq] at hrun
      subst hrun
      cases ho : e.output_order <;>
        simp [arm_cfft_q15, ho, bitrevPermute_length, hraw, h.2]
  · intro raw hraw e data d o out hrun
    simp only [Q31Fft.run, check_fft_size_eq] at hrun
    split_ifs at hrun with h
    · simp only [Option.some.injEq] at hrun
      subst hrun
      cases o <;> simp [arm_cfft_q31, bitrevPermute_length, hraw, h.2]
  · intro k hk e input output d res hrun
    simp only [FloatRealFft.run_inner, check_fft_size_eq] at hrun
    split_ifs at hrun with h1 h2
    · simp only [Option.some.injEq] at hrun
      subst hrun
      simp [hk, h1.2]
  · intro absK src dst
    rw [abs_f32, check_length2_eq]
    split_ifs with h
    · simp [arm_abs_f32]
    · rfl
  · intro src dst
    rw [abs_q31, check_length2_eq]
    split_ifs with h
    · simp [arm_abs_q31]
    · rfl
  · intro src dst
    rw [abs_q15, check_length2_eq]
    split_ifs with h
    · simp [arm_abs_q15]
    · rfl
  · intro src dst
    rw [abs_q7, check_length2_eq]
    split_ifs with h
    · simp [arm_abs_q7]
    · rfl
  · intro addK src1 src2 dst
    rw [add_f32, check_length3_eq]
    split_ifs with h
    · simp [arm_add_f32, zip_take_fst]
    · rfl
  · intro src1 src2 dst
    rw [add_q31, check_length3_eq]
    split_ifs with h
    · simp [arm_add_q31, zip_take_fst]
    · rfl
  · intro src1 src2 dst
    rw [add_q15, check_length3_eq]
    split_ifs with h
    · simp [arm_add_q15, zip_take_fst]
    · rfl
  · intro src1 src2 dst
    rw [add_q7, check_length3_eq]
    split_ifs with h
    · simp [arm_add_q7, zip_take_fst]
    · rfl
  · intro mulK src1 src2 dst
    rw [multiply_f32, check_length3_eq]
    split_ifs with h
    · simp [arm_mult_f32, zip_take_fst]
    · rfl
  · intro src1 src2 dst
    rw [multiply_q31, check_length3_eq]
    split_ifs with h
    · simp [arm_mult_q31, zip_take_fst]
    · rfl
  · intro src1 src2 dst
    rw [multiply_q15, check_length3_eq]
    split_ifs with h
    · simp [arm_mult_q15, zip_take_fst]
    · rfl
  · intro src1 src2 dst
    rw [multiply_q7, check_length3_eq]
    split_ifs with h
    · simp [arm_mult_q7, zip_take_fst]
    · rfl
  · intro mac src1 src2
    rw [dot_product_f32, check_length2_eq]
    split_ifs with h
    · simp [arm_dot_prod_f32, zip_take_fst]
    · rfl
  · intro mac src1 src2
    rw [dot_product_q31, check_length2_eq]
    split_ifs with h
    · simp [arm_dot_prod_q31, zip_take_fst]
    · rfl
  · intro mac src1 src2
    rw [dot_product_q15, check_length2_eq]
    split_ifs with h
    · simp [arm_dot_prod_q15, zip_take_fst]
    · rfl
  · intro mac src1 src2
    rw [dot_product_q7, check_length2_eq]
    split_ifs with h
    · simp [arm_dot_prod_q7, zip_take_fst]
    · rfl
  · intro raw e data d o
    simp only [FloatFft.run, check_fft_size_eq]
    split_ifs with h <;> rfl
  · intro raw e data
    simp only [Q15Fft.run, check_fft_size_eq]
    split_ifs with h <;> rfl
  · intro raw e data d o
    simp only [Q31Fft.run, check_fft_size_eq]
    split_ifs with h <;> rfl
  · intro k e input output d
    simp only [FloatRealFft.run_inner, check_fft_size_eq]
    split_ifs <;> simp_all <;> omega
  · intro k hk e input output res hrun
    simp only [Q15RealFft.run, check_fft_size_eq] at hrun
    split_ifs at hrun with h1 h2
    · simp only [Option.some.injEq] at hrun
      subst hrun
      simp [hk, h1.2]
  · intro k hk e input output res hrun
    simp only [Q31RealFft.run, check_fft_size_eq] at hrun
    split_ifs at hrun with h1 h2
    · simp only [Option.some.injEq] at hrun
      subst hrun
      simp [hk, h1.2]
  · intro k e input output
    simp only [Q15RealFft.run, check_fft_size_eq]
    split_ifs <;> simp_all <;> omega
  · intro k e input output
    simp only [Q31RealFft.run, check_fft_size_eq]
    split_ifs <;> simp_all <;> omega
  · intro absK values
    rw [abs_in_place_f32, check_length1]
    split_ifs with h
    · simp [arm_abs_f32]
    · rfl
  · intro values
    rw [abs_in_place_q31, check_length1]
    split_ifs with h
    · simp [arm_abs_q31]
    · rfl
  · intro values
    rw [abs_in_place_q15, check_length1]
    split_ifs with h
    · simp [arm_abs_q15]
    · rfl
  · intro values
    rw [abs_in_place_q7, check_length1]
    split_ifs with h
    · simp [arm_abs_q7]
    · rfl

/-- Witness for C3: the coverage conjunct applied to a concrete
length-preserving kernel, a size-16 engine, and a matching 16-element
buffer. -/
theorem c3_length_contract_witness :
    (List.replicate 16 ((0 : ℚ), (0 : ℚ))).length = arm_cfft_sR_f32_len16.fftLen :=
  c3_length_contract.1 (fun _ l _ => l) (fun _ _ _ => rfl)
    ⟨arm_cfft_sR_f32_len16⟩ (List.replicate 16 ((0 : ℚ), (0 : ℚ)))
    Direction.Forward OutputOrder.Raw
    (List.replicate 16 ((0 : ℚ), (0 : ℚ))) (by rfl)

theorem floatFft_run_of_matching (raw : RawCfftF32) (e : FloatFft)
    (data : List Complex32) (d : Direction) (o : OutputOrder)
    (hbound : data.length < U16_BOUND) (hlen : e.inst.fftLen = data.length) :
    FloatFft.run raw e data d o = some (arm_cfft_f32 raw e.inst data d o) := by
  simp [FloatFft.run, check_fft_size_eq, hbound, hlen]

theorem q15Fft_run_of_matching (raw : RawCfftQ15) (e : Q15Fft)
    (data : List ComplexQ15)
    (hbound : data.length < U16_BOUND) (hlen : e.inst.fftLen = data.length) :
    Q15Fft.run raw e data =
      some (arm_cfft_q15 raw e.inst data e.direction e.output_order) := by
  simp [Q15Fft.run, check_fft_size_eq, hbound, hlen]

theorem q31Fft_run_of_matching (raw : RawCfftQ31) (e : Q31Fft)
    (data : List ComplexQ31) (d : Direction) (o : OutputOrder)
    (hbound : data.length < U16_BOUND) (hlen : e.inst.fftLen = data.length) :
    Q31Fft.run raw e data d o = some (arm_cfft_q31 raw e.inst data d o) := by
  simp [Q31Fft.run, check_fft_size_eq, hbound, hlen]

/-- A 16-element complex fixed-point buffer with pairwise distinct
entries. -/
def sampleCplxData : List (ℤ × ℤ) :=
  List.map (fun i => ((i : ℤ), 0)) (List.range 16)

/-- C4 counterexample: the claim says every fixed-point complex engine is
constructed with new(size, direction, output_order) and has its run apply
the construction-time parameters; but Q31Fft::new takes only a size (its
engine value stores no direction or output order), and the result of
Q31Fft::run depends on the per-call output order, as this concrete run
shows (identity butterfly kernel, 16 distinct samples: Raw and Standard
orders give different buffers). -/
theorem c4_counterexample :
    Q31Fft.new 16 = Except.ok ⟨arm_cfft_sR_q31_len16⟩ ∧
    Q31Fft.run (fun _ data _ => data) ⟨arm_cfft_sR_q31_len16⟩ sampleCplxData
        Direction.Forward OutputOrder.Raw ≠
      Q31Fft.run (fun _ data _ => data) ⟨arm_cfft_sR_q31_len16⟩ sampleCplxData
        Direction.Forward OutputOrder.Standard :=
  ⟨rfl, by decide⟩

/-- C4 amended: fixed-point real engines (Q15RealFft, Q31RealFft) and the
Q1.15 complex engine are constructed with new(size, direction,
output_order) and store those parameters, while the float32 engines and
the Q1.31 complex engine take only a size; consequently Q15Fft::run
applies the Direction and OutputOrder supplied at construction, whereas
FloatFft::run and Q31Fft::run apply the Direction and OutputOrder supplied
at each call. -/
theorem c4_amended :
    (∀ size d o e, Q15Fft.new size d o = Except.ok e →
      e.direction = d ∧ e.output_order = o) ∧
    (∀ size d o e, Q15RealFft.new size d o = Except.ok e →
      e.inst.ifftFlagR = d ∧ e.inst.bitReverseFlagR = o) ∧
    (∀ size d o e, Q31RealFft.new size d o = Except.ok e →
      e.inst.ifftFlagR = d ∧ e.inst.bitReverseFlagR = o) ∧
    (∀ (raw : RawCfftQ15) (e : Q15Fft) (data : List ComplexQ15),
      data.length < U16_BOUND → e.inst.fftLen = data.length →
      Q15Fft.run raw e data =
        some (arm_cfft_q15 raw e.inst data e.direction e.output_order)) ∧
    (∀ (raw : RawCfftF32) (e : FloatFft) (data : List Complex32) d o,
      data.length < U16_BOUND → e.inst.fftLen = data.length →
      FloatFft.run raw e data d o = some (arm_cfft_f32 raw e.inst data d o)) ∧
    (∀ (raw : RawCfftQ31) (e : Q31Fft) (data : List ComplexQ31) d o,
      data.length < U16_BOUND → e.inst.fftLen = data.length →
      Q31Fft.run raw e data d o = some (arm_cfft_q31 raw e.inst data d o)) := by
  refine ⟨?_, ?_, ?_, ?_, ?_, ?_⟩
  · intro size d o e h
    unfold Q15Fft.new at h
    split_ifs at h <;>
      first
        | (injection h with h; subst h; exact ⟨rfl, rfl⟩)
        | simp at h
  · intro size d o e h
    unfold Q15RealFft.new arm_rfft_init_q15 at h
    split_ifs at h <;>
      first
        | (simp only [Except.map] at h; injection h with h; subst h;
           exact ⟨rfl, rfl⟩)
        | simp [Except.map] at h
  · intro size d o e h
    unfold Q31RealFft.new arm_rfft_init_q31 at h
    split_ifs at h <;>
      first
        | (simp only [Except.map] at h; injection h with h; subst h;
           exact ⟨rfl, rfl⟩)
        | simp [Except.map] at h
  · intro raw e data hbound hlen
    exact q15Fft_run_of_matching raw e data hbound hlen
  · intro raw e data d o hbound hlen
    exact floatFft_run_of_matching raw e data d o hbound hlen
  · intro raw e data d o hbound hlen
    exact q31Fft_run_of_matching raw e data d o hbound hlen

/-- Witness for C4 amended: a size-16 Q1.15 engine built with Inverse /
Raw stores those parameters, and its run applies them. -/
theorem c4_amended_witness :
    ((⟨arm_cfft_sR_q15_len16, Direction.Inverse, OutputOrder.Raw⟩ : Q15Fft).direction
        = Direction.Inverse ∧
      (⟨arm_cfft_sR_q15_len16, Direction.Inverse, OutputOrder.Raw⟩ : Q15Fft).output_order
        = OutputOrder.Raw) ∧
    Q15Fft.run (fun _ l _ => l)
        ⟨arm_cfft_sR_q15_len16, Direction.Inverse, OutputOrder.Raw⟩ sampleCplxData =
      some (arm_cfft_q15 (fun _ l _ => l) arm_cfft_sR_q15_len16 sampleCplxData
        Direction.Inverse OutputOrder.Raw) :=
  ⟨c4_amended.1 16 Direction.Inverse OutputOrder.Raw
      ⟨arm_cfft_sR_q15_len16, Direction.Inverse, OutputOrder.Raw⟩ rfl,
    c4_amended.2.2.2.1 (fun _ l _ => l)
      ⟨arm_cfft_sR_q15_len16, Direction.Inverse, OutputOrder.Raw⟩ sampleCplxData
      (by decide) (by decide)⟩

/-- C5: a FloatRealFft run or run_inverse call on correctly sized buffers
leaves the input buffer exactly unchanged, and the only buffer written is
the output buffer (which afterwards holds exactly the kernel spectrum of
the input).  That the native kernel is free of input mutation is the contract
the spec states (section 4.4) and is part of the kernel model. -/
theorem c5_input_not_mutated :
    (∀ (k : RawRfftF32) (e : FloatRealFft) (input output : List F32) d res,
      FloatRealFft.run_inner k e input output d = some res →
      res.1 = input ∧ res.2 = k e.inst input d) ∧
    (∀ (k : RawRfftF32) (e : FloatRealFft) (input output : List F32) res,
      FloatRealFft.run k e input output = some res → res.1 = input) ∧
    (∀ (k : RawRfftF32) (e : FloatRealFft) (input output : List F32) res,
      FloatRealFft.run_inverse k e input output = some res → res.1 = input) := by
  have hinner : ∀ (k : RawRfftF32) (e : FloatRealFft)
      (input output : List F32) d res,
      FloatRealFft.run_inner k e input output d = some res →
      res.1 = input ∧ res.2 = k e.inst input d := by
    intro k e input output d res h
    simp only [FloatRealFft.run_inner] at h
    split at h
    · exact Option.noConfusion h
    · split at h
      · exact Option.noConfusion h
      · simp only [Option.some.injEq] at h
        subst h
        exact ⟨rfl, rfl⟩
  exact ⟨hinner,
    fun k e input output res h => (hinner k e input output Direction.Forward res h).1,
    fun k e input output res h => (hinner k e input output Direction.Inverse res h).1⟩

/-- Witness for C5 at a concrete size-32 engine, identity kernel, and
matching 32-sample buffers. -/
theorem c5_input_not_mutated_witness :
    (List.replicate 32 (0 : ℚ), List.replicate 32 (0 : ℚ)).1 =
        List.replicate 32 (0 : ℚ) ∧
      (List.replicate 32 (0 : ℚ), List.replicate 32 (0 : ℚ)).2 =
        (fun (_ : ArmRfftFastInstanceF32) (l : List F32) (_ : Direction) => l)
          (⟨32⟩ : ArmRfftFastInstanceF32) (List.replicate 32 (0 : ℚ))
          Direction.Forward :=
  c5_input_not_mutated.1 (fun _ l _ => l) ⟨⟨32⟩⟩
    (List.replicate 32 (0 : ℚ)) (List.replicate 32 (0 : ℚ)) Direction.Forward
    (List.replicate 32 (0 : ℚ), List.replicate 32 (0 : ℚ)) (by rfl)

/-- C6: for every engine family (real and complex, all three numeric
representations), a run call maps the engine-plus-buffers state to a state
whose engine component is exactly the engine it started with: only the
caller-supplied buffers are mutated.  Engine immutability across the
native call is the read-only-table contract of the spec and is part of the
kernel model. -/
theorem c6_engine_unchanged :
    (∀ (raw : RawCfftF32) (e : FloatFft) data d o s,
      FloatFft.runState raw e data d o = some s → s.1 = e) ∧
    (∀ (raw : RawCfftQ15) (e : Q15Fft) data s,
      Q15Fft.runState raw e data = some s → s.1 = e) ∧
    (∀ (raw : RawCfftQ31) (e : Q31Fft) data d o s,
      Q31Fft.runState raw e data d o = some s → s.1 = e) ∧
    (∀ (k : RawRfftF32) (e : FloatRealFft) input output d s,
      FloatRealFft.runState k e input output d = some s → s.1 = e) ∧
    (∀ (k : RawRfftQ15) (e : Q15RealFft) input output s,
      Q15RealFft.runState k e input output = some s → s.1 = e) ∧
    (∀ (k : RawRfftQ31) (e : Q31RealFft) input output s,
      Q31RealFft.runState k e input output = some s → s.1 = e) := by
  refine ⟨?_, ?_, ?_, ?_, ?_, ?_⟩ <;>
    intro raw e data
  · intro d o s h
    rcases Option.map_eq_some'.1 h with ⟨out, _, rfl⟩
    rfl
  · intro s h
    rcases Option.map_eq_some'.1 h with ⟨out, _, rfl⟩
    rfl
  · intro d o s h
    rcases Option.map_eq_some'.1 h with ⟨out, _, rfl⟩
    rfl
  · intro output d s h
    rcases Option.map_eq_some'.1 h with ⟨out, _, rfl⟩
    rfl
  · intro output s h
    rcases Option.map_eq_some'.1 h with ⟨out, _, rfl⟩
    rfl
  · intro output s h
    rcases Option.map_eq_some'.1 h with ⟨out, _, rfl⟩
    rfl

/-- Witness for C6: a concrete Q1.15 complex run at size 16 returns the
very engine it was given. -/
theorem c6_engine_unchanged_witness :
    ((⟨arm_cfft_sR_q15_len16, Direction.Forward, OutputOrder.Raw⟩ : Q15Fft),
        sampleCplxData).1 =
      (⟨arm_cfft_sR_q15_len16, Direction.Forward, OutputOrder.Raw⟩ : Q15Fft) :=
  c6_engine_unchanged.2.1 (fun _ l _ => l)
    ⟨arm_cfft_sR_q15_len16, Direction.Forward, OutputOrder.Raw⟩ sampleCplxData
    (⟨arm_cfft_sR_q15_len16, Direction.Forward, OutputOrder.Raw⟩, sampleCplxData)
    (by rfl)

/-- C7: for every direction, output order, butterfly kernel and correctly
sized buffer, float_fft_128 and each fixed-length FftBuffer impl produce
exactly the buffer contents that FloatFft::run produces on an engine
constructed for the matching size: the convenience variants only skip the
size check, they are not independent algorithms. -/
theorem c7_fixed_size_equivalence (raw : RawCfftF32) (d : Direction)
    (o : OutputOrder) (data : List Complex32) :
    (∀ e, FloatFft.new 16 = Except.ok e → data.length = 16 →
      FloatFft.run raw e data d o = some (run_fft_len16 raw data d o)) ∧
    (∀ e, FloatFft.new 32 = Except.ok e → data.length = 32 →
      FloatFft.run raw e data d o = some (run_fft_len32 raw data d o)) ∧
    (∀ e, FloatFft.new 64 = Except.ok e → data.length = 64 →
      FloatFft.run raw e data d o = some (run_fft_len64 raw data d o)) ∧
    (∀ e, FloatFft.new 128 = Except.ok e → data.length = 128 →
      FloatFft.run raw e data d o = some (float_fft_128 raw data d o) ∧
      FloatFft.run raw e data d o = some (run_fft_len128 raw data d o)) ∧
    (∀ e, FloatFft.new 256 = Except.ok e → data.length = 256 →
      FloatFft.run raw e data d o = some (run_fft_len256 raw data d o)) ∧
    (∀ e, FloatFft.new 512 = Except.ok e → data.length = 512 →
      FloatFft.run raw e data d o = some (run_fft_len512 raw data d o)) ∧
    (∀ e, FloatFft.new 1024 = Except.ok e → data.length = 1024 →
      FloatFft.run raw e data d o = some (run_fft_len1024 raw data d o)) ∧
    (∀ e, FloatFft.new 2048 = Except.ok e → data.length = 2048 →
      FloatFft.run raw e data d o = some (run_fft_len2048 raw data d o)) ∧
    (∀ e, FloatFft.new 4096 = Except.ok e → data.length = 4096 →
      FloatFft.run raw e data d o = some (run_fft_len4096 raw data d o)) := by
  refine ⟨?_, ?_, ?_, ?_, ?_, ?_, ?_, ?_, ?_⟩ <;>
    intro e he hlen <;>
    injection he with he <;>
    subst he
  · exact floatFft_run_of_matching raw _ data d o (by rw [hlen]; decide) hlen.symm
  · exact floatFft_run_of_matching raw _ data d o (by rw [hlen]; decide) hlen.symm
  · exact floatFft_run_of_matching raw _ data d o (by rw [hlen]; decide) hlen.symm
  · exact ⟨floatFft_run_of_matching raw _ data d o (by rw [hlen]; decide) hlen.symm,
      floatFft_run_of_matching raw _ data d o (by rw [hlen]; decide) hlen.symm⟩
  · exact floatFft_run_of_matching raw _ data d o (by rw [hlen]; decide) hlen.symm
  · exact floatFft_run_of_matching raw _ data d o (by rw [hlen]; decide) hlen.symm
  · exact floatFft_run_of_matching raw _ data d o (by rw [hlen]; decide) hlen.symm
  · exact floatFft_run_of_matching raw _ data d o (by rw [hlen]; decide) hlen.symm
  · exact floatFft_run_of_matching raw _ data d o (by rw [hlen]; decide) hlen.symm

/-- Witness for C7: at size 128 with an identity butterfly kernel and a
concrete zero buffer, the engine run agrees with float_fft_128. -/
theorem c7_fixed_size_equivalence_witness :
    FloatFft.run (fun _ l _ => l) ⟨arm_cfft_sR_f32_len128⟩
        (List.replicate 128 ((0 : ℚ), (0 : ℚ))) Direction.Forward
        OutputOrder.Standard =
      some (float_fft_128 (fun _ l _ => l)
        (List.replicate 128 ((0 : ℚ), (0 : ℚ))) Direction.Forward
        OutputOrder.Standard) :=
  ((c7_fixed_size_equivalence (fun _ l _ => l) Direction.Forward
      OutputOrder.Standard (List.replicate 128 ((0 : ℚ), (0 : ℚ)))).2.2.2.1
    ⟨arm_cfft_sR_f32_len128⟩ rfl (by simp)).1

/-- C8: for in-range Q1.15 and Q1.31 operands, whenever the elementwise
sum or scaled product exceeds the representable range, the stored result
of the saturating add / multiply is the extreme representable value of the
correct sign, never a wrapped-around value.  The final conjunct of each
group shows the scaled product of in-range operands can never fall below
the minimum, so the only reachable multiply overflow is the positive one
(minimum times minimum). -/
theorem c8_saturation_never_wraps :
    (∀ a b : ℤ, qMin 15 ≤ a → a ≤ qMax 15 → qMin 15 ≤ b → b ≤ qMax 15 →
      (qMax 15 < a + b → add_q15_elem a b = qMax 15 ∧ 0 < a + b) ∧
      (a + b < qMin 15 → add_q15_elem a b = qMin 15 ∧ a + b < 0) ∧
      (qMax 15 < Int.ediv (a * b) (2 ^ 15) →
        mult_q15_elem a b = qMax 15 ∧ 0 < a * b) ∧
      qMin 15 ≤ Int.ediv (a * b) (2 ^ 15)) ∧
    (∀ a b : ℤ, qMin 31 ≤ a → a ≤ qMax 31 → qMin 31 ≤ b → b ≤ qMax 31 →
      (qMax 31 < a + b → add_q31_elem a b = qMax 31 ∧ 0 < a + b) ∧
      (a + b < qMin 31 → add_q31_elem a b = qMin 31 ∧ a + b < 0) ∧
      (qMax 31 < Int.ediv (a * b) (2 ^ 31) →
        mult_q31_elem a b = qMax 31 ∧ 0 < a * b) ∧
      qMin 31 ≤ Int.ediv (a * b) (2 ^ 31)) := by
  constructor
  · intro a b ha1 ha2 hb1 hb2
    have ha : |a| ≤ 2 ^ 15 := by
      simp only [qMin, qMax] at ha1 ha2
      exact abs_le.mpr ⟨ha1, by linarith⟩
    have hb : |b| ≤ 2 ^ 15 := by
      simp only [qMin, qMax] at hb1 hb2
      exact abs_le.mpr ⟨hb1, by linarith⟩
    have habs : |a * b| ≤ 2 ^ 30 := by
      rw [abs_mul]
      calc |a| * |b| ≤ 2 ^ 15 * 2 ^ 15 :=
            mul_le_mul ha hb (abs_nonneg b) (by norm_num)
      _ = 2 ^ 30 := by norm_num
    have hc : (0 : ℤ) < 2 ^ 15 := by norm_num
    refine ⟨?_, ?_, ?_, ?_⟩
    · intro h
      simp only [add_q15_elem, satBits, qMin, qMax] at *
      norm_num at *
      exact ⟨by split_ifs <;> omega, by omega⟩
    · intro h
      simp only [add_q15_elem, satBits, qMin, qMax] at *
      norm_num at *
      exact ⟨by split_ifs <;> omega, by omega⟩
    · intro h
      have hub : a * b ≤ 2 ^ 30 := (abs_le.mp habs).2
      have h15 : (2 : ℤ) ^ 15 ≤ Int.ediv (a * b) (2 ^ 15) := by
        simp only [qMax] at h
        omega
      have h30 : (2 : ℤ) ^ 30 ≤ a * b := by
        have := (Int.le_ediv_iff_mul_le hc).mp h15
        linarith [this, show (2 : ℤ) ^ 15 * 2 ^ 15 = 2 ^ 30 by norm_num]
      have heq : a * b = 2 ^ 30 := le_antisymm hub h30
      constructor
      · rw [mult_q15_elem, heq]
        norm_num [satBits, qMin, qMax]
      · rw [heq]
        norm_num
    · have hlb : -(2 ^ 30) ≤ a * b := (abs_le.mp habs).1
      have := (Int.le_ediv_iff_mul_le hc).mpr
        (show -(2 ^ 15) * 2 ^ 15 ≤ a * b by
          linarith [show -(2 : ℤ) ^ 15 * 2 ^ 15 = -(2 ^ 30) by norm_num])
      simpa [qMin] using this
  · intro a b ha1 ha2 hb1 hb2
    have ha : |a| ≤ 2 ^ 31 := by
      simp only [qMin, qMax] at ha1 ha2
      exact abs_le.mpr ⟨ha1, by linarith⟩
    have hb : |b| ≤ 2 ^ 31 := by
      simp only [qMin, qMax] at hb1 hb2
      exact abs_le.mpr ⟨hb1, by linarith⟩
    have habs : |a * b| ≤ 2 ^ 62 := by
      rw [abs_mul]
      calc |a| * |b| ≤ 2 ^ 31 * 2 ^ 31 :=
            mul_le_mul ha hb (abs_nonneg b) (by norm_num)
      _ = 2 ^ 62 := by norm_num
    have hc : (0 : ℤ) < 2 ^ 31 := by norm_num
    refine ⟨?_, ?_, ?_, ?_⟩
    · intro h
      simp only [add_q31_elem, satBits, qMin, qMax] at *
      norm_num at *
      exact ⟨by split_ifs <;> omega, by omega⟩
    · intro h
      simp only [add_q31_elem, satBits, qMin, qMax] at *
      norm_num at *
      exact ⟨by split_ifs <;> omega, by omega⟩
    · intro h
      have hub : a * b ≤ 2 ^ 62 := (abs_le.mp habs).2
      have h31 : (2 : ℤ) ^ 31 ≤ Int.ediv (a * b) (2 ^ 31) := by
        simp only [qMax] at h
        omega
      have h62 : (2 : ℤ) ^ 62 ≤ a * b := by
        have := (Int.le_ediv_iff_mul_le hc).mp h31
        linarith [this, show (2 : ℤ) ^ 31 * 2 ^ 31 = 2 ^ 62 by norm_num]
      have heq : a * b = 2 ^ 62 := le_antisymm hub h62
      constructor
      · rw [mult_q31_elem, heq]
        norm_num [satBits, qMin, qMax]
      · rw [heq]
        norm_num
    · have hlb : -(2 ^ 62) ≤ a * b := (abs_le.mp habs).1
      have := (Int.le_ediv_iff_mul_le hc).mpr
        (show -(2 ^ 31) * 2 ^ 31 ≤ a * b by
          linarith [show -(2 : ℤ) ^ 31 * 2 ^ 31 = -(2 ^ 62) by norm_num])
      simpa [qMin] using this

/-- Witness for C8: a concrete overflowing Q1.15 addition saturates to the
maximum, and the one reachable overflowing Q1.15 multiplication (minimum
times minimum) saturates to the positive maximum. -/
theorem c8_saturation_never_wraps_witness :
    (add_q15_elem 30000 30000 = qMax 15 ∧ 0 < (30000 : ℤ) + 30000) ∧
    (mult_q15_elem (-32768) (-32768) = qMax 15 ∧
      0 < (-32768 : ℤ) * (-32768)) :=
  ⟨(c8_saturation_never_wraps.1 30000 30000 (by decide) (by decide)
      (by decide) (by decide)).1 (by decide),
    (c8_saturation_never_wraps.1 (-32768) (-32768) (by decide) (by decide)
      (by decide) (by decide)).2.2.1 (by decide)⟩

/-- C9: each dot product function on empty inputs completes without
panicking and returns exactly zero, the initial accumulator value handed
to the kernel, for every possible multiply-accumulate arithmetic. -/
theorem c9_dot_product_empty (macF : F32 → F32 → F32 → F32)
    (mac31 : ℤ → Q31 → Q31 → ℤ) (mac15 : ℤ → Q15 → Q15 → ℤ) :
    dot_product_f32 macF [] [] = some 0 ∧
    dot_product_q31 mac31 [] [] = some 0 ∧
    dot_product_q15 mac15 [] [] = some 0 :=
  ⟨rfl, rfl, rfl⟩

/-- C10: OutputOrder::default() returns OutputOrder::Standard, and a call
configured with the default output order produces the
bit-reversal-applied (standard DFT index order) results rather than the
raw butterfly-order buffer, for every engine representation and butterfly
kernel. -/
theorem c10_default_standard_order :
    OutputOrder.default = OutputOrder.Standard ∧
    (∀ (raw : RawCfftF32) inst data d,
      arm_cfft_f32 raw inst data d OutputOrder.default =
        bitrevPermute (raw inst data d)) ∧
    (∀ (raw : RawCfftQ15) inst data d,
      arm_cfft_q15 raw inst data d OutputOrder.default =
        bitrevPermute (raw inst data d)) ∧
    (∀ (raw : RawCfftQ31) inst data d,
      arm_cfft_q31 raw inst data d OutputOrder.default =
        bitrevPermute (raw inst data d)) :=
  ⟨rfl, fun _ _ _ _ => rfl, fun _ _ _ _ => rfl, fun _ _ _ _ => rfl⟩

end CmsisDsp
